import Mathlib

/-!
Verification development for the flashcard study engine and the
shopping-list utilities of this repository.

The Python modules are shallowly embedded:

* JSON documents are modelled by the inductive type `Json`; Python `dict`s
  become association lists with string keys (Python 3.7+ dicts preserve
  insertion order, which the association-list model reflects).
* File I/O is modelled by explicit outcome types (`LecturaArchivo` for
  reads, `ResultadoEscritura` for writes); each Python `except` branch of
  the source corresponds to one constructor.
* Python floats in the scoring code only ever hold the dyadic values
  0.0, 0.5, 1.0 and their exact sums, so points are modelled by `ℚ`.
* `random.shuffle` is the Fisher-Yates loop of CPython, parameterised by
  the stream of random draws; interactive `input()` is a stream of
  strings, and per-question exceptional outcomes (interrupt, read error)
  are explicit constructors.
-/

/-- JSON values, as produced by Python's `json.load`.  Numbers are modelled
by `ℚ` (ample for every number this repository serialises). -/
inductive Json where
  | null : Json
  | bool (b : Bool) : Json
  | num (n : ℚ) : Json
  | str (s : String) : Json
  | arr (items : List Json) : Json
  | obj (campos : List (String × Json)) : Json

mutual

/-- Decidable equality of JSON values (hand-rolled: `Json` is a nested
inductive, so `deriving` does not apply). -/
def Json.decEq : (a b : Json) → Decidable (a = b)
  | .null, .null => .isTrue rfl
  | .null, .bool _ => .isFalse (fun h => nomatch h)
  | .null, .num _ => .isFalse (fun h => nomatch h)
  | .null, .str _ => .isFalse (fun h => nomatch h)
  | .null, .arr _ => .isFalse (fun h => nomatch h)
  | .null, .obj _ => .isFalse (fun h => nomatch h)
  | .bool _, .null => .isFalse (fun h => nomatch h)
  | .bool a, .bool b =>
    if h : a = b then .isTrue (by rw [h]) else .isFalse (fun hh => h (Json.bool.inj hh))
  | .bool _, .num _ => .isFalse (fun h => nomatch h)
  | .bool _, .str _ => .isFalse (fun h => nomatch h)
  | .bool _, .arr _ => .isFalse (fun h => nomatch h)
  | .bool _, .obj _ => .isFalse (fun h => nomatch h)
  | .num _, .null => .isFalse (fun h => nomatch h)
  | .num _, .bool _ => .isFalse (fun h => nomatch h)
  | .num a, .num b =>
    if h : a = b then .isTrue (by rw [h]) else .isFalse (fun hh => h (Json.num.inj hh))
  | .num _, .str _ => .isFalse (fun h => nomatch h)
  | .num _, .arr _ => .isFalse (fun h => nomatch h)
  | .num _, .obj _ => .isFalse (fun h => nomatch h)
  | .str _, .null => .isFalse (fun h => nomatch h)
  | .str _, .bool _ => .isFalse (fun h => nomatch h)
  | .str _, .num _ => .isFalse (fun h => nomatch h)
  | .str a, .str b =>
    if h : a = b then .isTrue (by rw [h]) else .isFalse (fun hh => h (Json.str.inj hh))
  | .str _, .arr _ => .isFalse (fun h => nomatch h)
  | .str _, .obj _ => .isFalse (fun h => nomatch h)
  | .arr _, .null => .isFalse (fun h => nomatch h)
  | .arr _, .bool _ => .isFalse (fun h => nomatch h)
  | .arr _, .num _ => .isFalse (fun h => nomatch h)
  | .arr _, .str _ => .isFalse (fun h => nomatch h)
  | .arr xs, .arr ys =>
    match Json.decEqItems xs ys with
    | .isTrue h => .isTrue (by rw [h])
    | .isFalse h => .isFalse (fun hh => h (Json.arr.inj hh))
  | .arr _, .obj _ => .isFalse (fun h => nomatch h)
  | .obj _, .null => .isFalse (fun h => nomatch h)
  | .obj _, .bool _ => .isFalse (fun h => nomatch h)
  | .obj _, .num _ => .isFalse (fun h => nomatch h)
  | .obj _, .str _ => .isFalse (fun h => nomatch h)
  | .obj _, .arr _ => .isFalse (fun h => nomatch h)
  | .obj xs, .obj ys =>
    match Json.decEqCampos xs ys with
    | .isTrue h => .isTrue (by rw [h])
    | .isFalse h => .isFalse (fun hh => h (Json.obj.inj hh))

/-- Decidable equality of JSON arrays' item lists. -/
def Json.decEqItems : (a b : List Json) → Decidable (a = b)
  | [], [] => .isTrue rfl
  | [], _ :: _ => .isFalse (fun h => nomatch h)
  | _ :: _, [] => .isFalse (fun h => nomatch h)
  | x :: xs, y :: ys =>
    match Json.decEq x y with
    | .isFalse h => .isFalse (fun hh => h (List.cons.inj hh).1)
    | .isTrue h1 =>
      match Json.decEqItems xs ys with
      | .isTrue h2 => .isTrue (by rw [h1, h2])
      | .isFalse h => .isFalse (fun hh => h (List.cons.inj hh).2)

/-- Decidable equality of JSON objects' field lists. -/
def Json.decEqCampos : (a b : List (String × Json)) → Decidable (a = b)
  | [], [] => .isTrue rfl
  | [], _ :: _ => .isFalse (fun h => nomatch h)
  | _ :: _, [] => .isFalse (fun h => nomatch h)
  | (k1, v1) :: xs, (k2, v2) :: ys =>
    if hk : k1 = k2 then
      match Json.decEq v1 v2 with
      | .isFalse h => .isFalse (fun hh => h (congrArg Prod.snd (List.cons.inj hh).1))
      | .isTrue h1 =>
        match Json.decEqCampos xs ys with
        | .isTrue h2 => .isTrue (by rw [hk, h1, h2])
        | .isFalse h => .isFalse (fun hh => h (List.cons.inj hh).2)
    else .isFalse (fun hh => hk (congrArg Prod.fst (List.cons.inj hh).1))

end

instance : DecidableEq Json := Json.decEq

/-- Lookup in an association list, first match wins (like a Python dict
whose keys are unique). -/
def buscar {β : Type} : List (String × β) → String → Option β
  | [], _ => none
  | (k, v) :: resto, clave => if k = clave then some v else buscar resto clave

/-- Python's `key in dict`. -/
def contiene {β : Type} (d : List (String × β)) (clave : String) : Bool :=
  (buscar d clave).isSome

/-- Python's `dict[key]` on a dict known to hold the key (defaults to
`Json.null` otherwise; callers only use it after a presence check). -/
def obtenerCampo (j : Json) (clave : String) : Json :=
  match j with
  | .obj campos => (buscar campos clave).getD .null
  | _ => .null

/-- Coerce a JSON value expected to be a string (validation guarantees the
`str` case at every use site). -/
def comoCadena (j : Json) : String :=
  match j with
  | .str s => s
  | _ => ""

/-- Python's `isinstance(x, dict)`. -/
def Json.esDiccionario : Json → Bool
  | .obj _ => true
  | _ => false

/-- Python's `isinstance(x, list)`. -/
def Json.esLista : Json → Bool
  | .arr _ => true
  | _ => false

/-! ### Python string primitives

`str.strip()` and `str.lower()` are modelled at the character-list level
(so that proofs can evaluate them); they agree with Python on the ASCII
strings this repository handles. -/

/-- The whitespace test of `str.strip()`. -/
def es_espacio (c : Char) : Bool := c.isWhitespace

/-- Python's `str.strip()`: drop leading and trailing whitespace. -/
def recortar (s : String) : String :=
  ⟨((s.data.dropWhile es_espacio).reverse.dropWhile es_espacio).reverse⟩

/-- Python's `str.lower()` on one character (ASCII). -/
def minuscula (c : Char) : Char :=
  if 'A' ≤ c && c ≤ 'Z' then Char.ofNat (c.toNat + 32) else c

/-- Python's `str.lower()`. -/
def minusculas (s : String) : String := ⟨s.data.map minuscula⟩

/-! ## flashcore.py — the flashcard store -/

/-- Outcome of opening and JSON-decoding a file, one constructor per
`except` branch of `cargar_flashcards`. -/
inductive LecturaArchivo where
  | noEncontrado : LecturaArchivo
  | sinPermisos : LecturaArchivo
  | corrupto : LecturaArchivo
  | otroError : LecturaArchivo
  | ok (datos : Json) : LecturaArchivo
  deriving DecidableEq

/-- The warnings `cargar_flashcards` prints, one constructor per message
site in the source. -/
inductive Advertencia where
  | archivoNoEncontrado : Advertencia
  | lecturaSinPermisos : Advertencia
  | jsonInvalido : Advertencia
  | errorInesperado : Advertencia
  | contenidoNoEsLista : Advertencia
  | elementoInvalido (i : Nat) : Advertencia
  deriving DecidableEq

/-- The per-item filter of `cargar_flashcards`:
`isinstance(item, dict) and all(key in item for key in ['pregunta', 'respuesta', 'categoria'])`. -/
def es_flashcard_valida (item : Json) : Bool :=
  match item with
  | .obj campos => ["pregunta", "respuesta", "categoria"].all (contiene campos)
  | _ => false

/-- The validation loop of `cargar_flashcards`: keep valid items, warn and
drop the rest (`i` is the running index of the `enumerate`). -/
def validar_items : List Json → Nat → List Json × List Advertencia
  | [], _ => ([], [])
  | item :: resto, i =>
    let r := validar_items resto (i + 1)
    if es_flashcard_valida item then (item :: r.1, r.2)
    else (r.1, .elementoInvalido i :: r.2)

/-- The function `cargar_flashcards` of flashcore.py: returns the loaded deck together
with the warnings printed; every branch of the source returns a list, so
the function is total and never propagates an error. -/
def cargar_flashcards (lectura : LecturaArchivo) : List Json × List Advertencia :=
  match lectura with
  | .noEncontrado => ([], [.archivoNoEncontrado])
  | .sinPermisos => ([], [.lecturaSinPermisos])
  | .corrupto => ([], [.jsonInvalido])
  | .otroError => ([], [.errorInesperado])
  | .ok datos =>
    match datos with
    | .arr items => validar_items items 0
    | _ => ([], [.contenidoNoEsLista])

/-- The document `guardar_flashcards` passes to `json.dump`: the flashcard
list itself, serialised directly as a JSON array. -/
def guardar_serializado (flashcards : List Json) : Json :=
  .arr flashcards

/-- Write outcome for `guardar_flashcards`, one constructor per `except`
branch. -/
inductive ResultadoEscritura where
  | exito : ResultadoEscritura
  | sinPermisos : ResultadoEscritura
  | errorSistema : ResultadoEscritura
  | noSerializable : ResultadoEscritura
  | otroError : ResultadoEscritura
  deriving DecidableEq

/-- The function `guardar_flashcards` of flashcore.py: returns the success flag together
with the document written to disk (none when the write failed). -/
def guardar_flashcards (flashcards : List Json) (resultado : ResultadoEscritura) :
    Bool × Option Json :=
  match resultado with
  | .exito => (true, some (guardar_serializado flashcards))
  | _ => (false, none)

/-- Errors `crear_flashcard` raises (`ValueError`), one per guard. -/
inductive ErrorValor where
  | preguntaVacia : ErrorValor
  | respuestaVacia : ErrorValor
  | categoriaVacia : ErrorValor
  deriving DecidableEq

/-- The function `crear_flashcard` of flashcore.py: validates the three fields and
builds the `Flashcard` TypedDict with trimmed values. -/
def crear_flashcard (pregunta respuesta categoria : String) : Except ErrorValor Json :=
  if recortar pregunta = "" then .error .preguntaVacia
  else if recortar respuesta = "" then .error .respuestaVacia
  else if recortar categoria = "" then .error .categoriaVacia
  else .ok (.obj [("pregunta", .str (recortar pregunta)),
                  ("respuesta", .str (recortar respuesta)),
                  ("categoria", .str (recortar categoria))])

/-! ## quizme.py — the quiz session

Strings are compared after `strip()`/`lower()`; the embedding uses
`String.trim`/`String.toLower`, which agree with Python on the ASCII
alphabet this repository exercises. -/

/-- The `QuizError` raised during deck validation, one constructor per raise
site (the message's index and field name are carried as data). -/
inductive ErrorQuiz where
  | deckVacio : ErrorQuiz
  | noEsDiccionario (indice : Nat) : ErrorQuiz
  | campoFaltante (indice : Nat) (campo : String) : ErrorQuiz
  | preguntaInvalida (indice : Nat) : ErrorQuiz
  | respuestaInvalida (indice : Nat) : ErrorQuiz
  deriving DecidableEq

/-- The function `procesar_respuesta_usuario`: strip and lowercase both strings, then
compare for exact equality. -/
def procesar_respuesta_usuario (respuesta_usuario respuesta_correcta : String) : Bool :=
  minusculas (recortar respuesta_usuario) == minusculas (recortar respuesta_correcta)

/-- The `for campo in campos_requeridos` loop of `validar_flashcard`:
first required field missing from the dict, if any. -/
def primer_campo_faltante (campos : List (String × Json)) : List String → Option String
  | [] => none
  | c :: resto => if contiene campos c then primer_campo_faltante campos resto else some c

/-- The list `campos_requeridos` of `validar_flashcard`. -/
def campos_requeridos : List String := ["pregunta", "respuesta", "categoria"]

/-- Python's `isinstance(x, str) and x.strip()`: the value is a string that is
non-empty after stripping. -/
def es_cadena_no_vacia (j : Json) : Bool :=
  match j with
  | .str s => recortar s != ""
  | _ => false

/-- The function `validar_flashcard` of quizme.py: `none` when the card passes, else
the first `QuizError` raised.  Note the source checks emptiness of
`pregunta` and `respuesta` only; `categoria` merely has to be present. -/
def validar_flashcard (campos : List (String × Json)) (indice : Nat) : Option ErrorQuiz :=
  match primer_campo_faltante campos campos_requeridos with
  | some c => some (.campoFaltante indice c)
  | none =>
    if !es_cadena_no_vacia ((buscar campos "pregunta").getD .null) then
      some (.preguntaInvalida indice)
    else if !es_cadena_no_vacia ((buscar campos "respuesta").getD .null) then
      some (.respuestaInvalida indice)
    else none

/-- Result of `ejecutar_pregunta`: the returned `(puntos, fue_correcta)`
pair plus the observable interaction facts (how many times `input()` was
called, whether the canonical answer was printed). -/
structure ResultadoPregunta where
  puntos : ℚ
  correcta : Bool
  intentosUsados : Nat
  respuestaRevelada : Bool
  deriving DecidableEq

/-- The function `ejecutar_pregunta` of quizme.py: up to two attempts read from the
input stream `entradas` (each raw line is `strip()`ped as in the source);
1.0 point on a first-attempt match, 0.5 on a second-attempt match, 0.0
otherwise with the canonical answer revealed. -/
def ejecutar_pregunta (respuesta_correcta : String) (entradas : Nat → String) :
    ResultadoPregunta :=
  if procesar_respuesta_usuario (recortar (entradas 0)) respuesta_correcta then
    { puntos := 1, correcta := true, intentosUsados := 1, respuestaRevelada := false }
  else if procesar_respuesta_usuario (recortar (entradas 1)) respuesta_correcta then
    { puntos := 1/2, correcta := true, intentosUsados := 2, respuestaRevelada := false }
  else
    { puntos := 0, correcta := false, intentosUsados := 2, respuestaRevelada := true }

/-- What happens while one question of the session is scored:
normal interaction (a stream of answers), a `KeyboardInterrupt`, or any
other exception (e.g. `EOFError` from `input()`), matching the two
`except` arms inside the quiz loop. -/
inductive EntradaPregunta where
  | respuestas (e : Nat → String) : EntradaPregunta
  | interrupcion : EntradaPregunta
  | excepcion : EntradaPregunta

/-- The running counters of `iniciar_quiz`. -/
structure EstadoQuiz where
  puntuacion_total : ℚ
  correctas_primer_intento : Nat
  correctas_segundo_intento : Nat
  deriving DecidableEq

/-- The final report printed by `mostrar_resumen_final`. -/
structure Resumen where
  puntuacion_total : ℚ
  total_preguntas : Nat
  correctas : Nat
  parcialmente_correctas : Nat
  incorrectas : Nat
  porcentaje : ℚ
  deriving DecidableEq

/-- The function `mostrar_resumen_final` of quizme.py, as the report it prints. -/
def mostrar_resumen_final (puntuacion_total : ℚ) (total_preguntas : Nat)
    (correctas parcialmente_correctas : Nat) : Resumen :=
  { puntuacion_total := puntuacion_total
    total_preguntas := total_preguntas
    correctas := correctas
    parcialmente_correctas := parcialmente_correctas
    incorrectas := total_preguntas - correctas - parcialmente_correctas
    porcentaje := if total_preguntas > 0 then
        puntuacion_total / (total_preguntas : ℚ) * 100 else 0 }

/-- The `for i, flashcard in enumerate(deck_mezclado, 1)` loop of
`iniciar_quiz`: `none` when a `KeyboardInterrupt` ends the session early,
otherwise the final counters.  A question whose scoring raises any other
exception is skipped (`continue`) without touching the counters. -/
def bucle_preguntas (entradas : Nat → EntradaPregunta) :
    List Json → Nat → EstadoQuiz → Option EstadoQuiz
  | [], _, estado => some estado
  | tarjeta :: resto, i, estado =>
    match entradas i with
    | .interrupcion => none
    | .excepcion => bucle_preguntas entradas resto (i + 1) estado
    | .respuestas e =>
      let res := ejecutar_pregunta (comoCadena (obtenerCampo tarjeta "respuesta")) e
      bucle_preguntas entradas resto (i + 1)
        { puntuacion_total := estado.puntuacion_total + res.puntos
          correctas_primer_intento := estado.correctas_primer_intento +
            (if res.correcta = true ∧ res.puntos = 1 then 1 else 0)
          correctas_segundo_intento := estado.correctas_segundo_intento +
            (if res.correcta = true ∧ res.puntos ≠ 1 ∧ res.puntos = 1/2 then 1 else 0) }

/-- The initial validation pass of `iniciar_quiz` over the deck:
first card that is not a dict or fails `validar_flashcard`, if any. -/
def primera_invalida : List Json → Nat → Option ErrorQuiz
  | [], _ => none
  | tarjeta :: resto, i =>
    match tarjeta with
    | .obj campos =>
      match validar_flashcard campos i with
      | some e => some e
      | none => primera_invalida resto (i + 1)
    | _ => some (.noEsDiccionario i)

/-! ### `random.shuffle`, the Fisher-Yates loop of CPython:
`for i in reversed(range(1, len(x))): j = randbelow(i+1); swap x[i], x[j]`.
The stream of random draws is a parameter `aleatorios`; the draw for
index `i` is reduced `mod (i+1)`, which is exactly the range `randbelow`
guarantees. -/

/-- Swap the elements at positions `i` and `j` of a list (identity when
either index is out of range). -/
def intercambiar {α : Type} (l : List α) (i j : Nat) : List α :=
  match l.get? i, l.get? j with
  | some a, some b => (l.set i b).set j a
  | _, _ => l

/-- The shuffle loop from iteration `i` down to 1. -/
def mezclar_desde {α : Type} (aleatorios : Nat → Nat) : List α → Nat → List α
  | l, 0 => l
  | l, i + 1 => mezclar_desde aleatorios (intercambiar l (i + 1) (aleatorios (i + 1) % (i + 2))) i

/-- Python's `random.shuffle` as a function: Fisher-Yates over the whole list. -/
def mezclar {α : Type} (aleatorios : Nat → Nat) (l : List α) : List α :=
  mezclar_desde aleatorios l (l.length - 1)

/-- Outcome of a whole `iniciar_quiz` call: a validation `QuizError`
(printed and swallowed), an operator interrupt, or a completed session
with its final report. -/
inductive ResultadoQuiz where
  | errorValidacion (e : ErrorQuiz) : ResultadoQuiz
  | interrumpido : ResultadoQuiz
  | completado (resumen : Resumen) : ResultadoQuiz
  deriving DecidableEq

/-- The function `iniciar_quiz` of quizme.py: validate the deck, shuffle a session-local
copy, run the question loop, and report.  `aleatorios` models the RNG
draws of `random.shuffle`; `entradas` models what happens at each question
(numbered from 1, as in the source's `enumerate(deck_mezclado, 1)`). -/
def iniciar_quiz (deck : List Json) (aleatorios : Nat → Nat)
    (entradas : Nat → EntradaPregunta) : ResultadoQuiz :=
  if deck.isEmpty then .errorValidacion .deckVacio
  else
    match primera_invalida deck 0 with
    | some e => .errorValidacion e
    | none =>
      let deck_mezclado := mezclar aleatorios deck
      match bucle_preguntas entradas deck_mezclado 1
          { puntuacion_total := 0, correctas_primer_intento := 0,
            correctas_segundo_intento := 0 } with
      | none => .interrumpido
      | some estado =>
        .completado (mostrar_resumen_final estado.puntuacion_total deck_mezclado.length
          estado.correctas_primer_intento estado.correctas_segundo_intento)

/-! ### The mutable-list view of session setup.

`iniciar_quiz` runs `deck_mezclado = deck.copy()` then
`random.shuffle(deck_mezclado)`: the shuffle mutates a fresh list object,
not the caller's.  To state this frame property faithfully we model the
Python heap of list objects explicitly: references are indices into a
store of lists, `copy` allocates, `shuffle` writes in place. -/

/-- The heap of list objects; a reference is an index into it. -/
abbrev Memoria := List (List Json)

/-- Dereference (out-of-range reads never occur in the modelled program). -/
def leer (m : Memoria) (ref : Nat) : List Json :=
  (List.get? m ref).getD []

/-- In-place update of the list object at `ref`. -/
def escribir (m : Memoria) (ref : Nat) (v : List Json) : Memoria :=
  List.set m ref v

/-- Allocate a fresh list object, returning the new heap and reference. -/
def reservar (m : Memoria) (v : List Json) : Memoria × Nat :=
  (m ++ [v], List.length m)

/-- The session-setup statements of `iniciar_quiz` on the heap model:
`deck_mezclado = deck.copy(); random.shuffle(deck_mezclado)`.  Returns the
heap afterwards and the reference to the session deck. -/
def preparar_deck_sesion (m : Memoria) (deck_ref : Nat) (aleatorios : Nat → Nat) :
    Memoria × Nat :=
  let copia := reservar m (leer m deck_ref)
  let m2 := escribir copia.1 copia.2 (mezclar aleatorios (leer copia.1 copia.2))
  (m2, copia.2)

/-! ## lista_compras.py (dict-based variant, foundations/python_basics) -/

/-- The shopping list: a Python dict from item name to quantity, modelled
as an insertion-ordered association list with unique keys. -/
def agregar_item (lista : List (String × Int)) (item : String) (cantidad : Int) :
    List (String × Int) :=
  if contiene lista item then
    lista.map (fun p => if p.1 = item then (p.1, p.2 + cantidad) else p)
  else
    lista ++ [(item, cantidad)]

/-! ## Helper lemmas -/

/-- Replacing the element at a known position and re-consing that element
is a permutation of consing the replacement. -/
theorem cons_set_perm {α : Type} {l : List α} {j : Nat} {b : α}
    (h : l.get? j = some b) (a : α) : List.Perm (b :: l.set j a) (a :: l) := by
  induction l generalizing j with
  | nil => simp at h
  | cons x xs ih =>
    cases j with
    | zero =>
      injection h with h
      subst h
      exact List.Perm.swap _ _ _
    | succ j =>
      simp only [List.get?] at h
      exact (List.Perm.swap x b (xs.set j a)).trans
        ((List.Perm.cons x (ih h)).trans (List.Perm.swap a x xs))

/-- Swapping two elements of a list via double `set` is a permutation. -/
theorem set_set_perm {α : Type} {l : List α} {i j : Nat} {a b : α}
    (hi : l.get? i = some a) (hj : l.get? j = some b) :
    List.Perm ((l.set i b).set j a) l := by
  induction l generalizing i j with
  | nil => simp at hi
  | cons x xs ih =>
    cases i with
    | zero =>
      injection hi with hi
      subst hi
      cases j with
      | zero =>
        injection hj with hj
        subst hj
        exact List.Perm.refl _
      | succ j =>
        simp only [List.get?] at hj
        exact cons_set_perm hj x
    | succ i =>
      simp only [List.get?] at hi
      cases j with
      | zero =>
        injection hj with hj
        subst hj
        exact cons_set_perm hi x
      | succ j =>
        simp only [List.get?] at hj
        exact List.Perm.cons x (ih hi hj)

/-- Swapping via `intercambiar` permutes the list. -/
theorem intercambiar_perm {α : Type} (l : List α) (i j : Nat) :
    List.Perm (intercambiar l i j) l := by
  rcases hi : l.get? i with _ | a <;> rcases hj : l.get? j with _ | b <;>
    simp only [intercambiar, hi, hj]
  · exact List.Perm.refl l
  · exact List.Perm.refl l
  · exact List.Perm.refl l
  · exact set_set_perm hi hj

/-- Every prefix of the shuffle loop permutes the list. -/
theorem mezclar_desde_perm {α : Type} (aleatorios : Nat → Nat) (l : List α) (i : Nat) :
    List.Perm (mezclar_desde aleatorios l i) l := by
  induction i generalizing l with
  | zero => exact List.Perm.refl l
  | succ i ih =>
    exact (ih _).trans (intercambiar_perm l (i + 1) (aleatorios (i + 1) % (i + 2)))

/-- Shuffling via `random.shuffle` permutes the list. -/
theorem mezclar_perm {α : Type} (aleatorios : Nat → Nat) (l : List α) :
    List.Perm (mezclar aleatorios l) l :=
  mezclar_desde_perm aleatorios l (l.length - 1)

/-- Shuffling via `random.shuffle` preserves the length. -/
theorem mezclar_length {α : Type} (aleatorios : Nat → Nat) (l : List α) :
    (mezclar aleatorios l).length = l.length :=
  (mezclar_perm aleatorios l).length_eq

/-- A concrete well-formed flashcard, used in several concrete checks. -/
def tarjeta_ejemplo : Json :=
  .obj [("pregunta", .str "Q"), ("respuesta", .str "A"), ("categoria", .str "C")]

/-- The bare-array deck document holding just `tarjeta_ejemplo`. -/
def documento_plano : Json := .arr [tarjeta_ejemplo]

/-- The enveloped deck document holding just `tarjeta_ejemplo` under a
`cards` field, as described by the store specification. -/
def documento_envuelto : Json :=
  .obj [("metadata", .obj [("version", .str "1.0"), ("card_count", .num 1)]),
        ("cards", .arr [tarjeta_ejemplo])]

/-- The enveloped document form the specification describes for writers:
an object carrying `metadata` and `cards` fields. -/
def es_documento_envuelto (j : Json) : Bool :=
  match j with
  | .obj campos => contiene campos "metadata" && contiene campos "cards"
  | _ => false

/-! ## Claim theorems -/

/-- C1: for every flashcard answer, the per-question protocol awards
exactly 1.0 point when the first attempt matches, 0.5 when the first
fails and the second matches, and 0.0 when both fail (revealing the
canonical answer); at most two attempts are ever read. -/
theorem puntuacion_dos_intentos (respuesta : String) (entradas : Nat → String) :
    (ejecutar_pregunta respuesta entradas).intentosUsados ≤ 2 ∧
    (procesar_respuesta_usuario (recortar (entradas 0)) respuesta = true →
      ejecutar_pregunta respuesta entradas =
        { puntos := 1, correcta := true, intentosUsados := 1, respuestaRevelada := false }) ∧
    (procesar_respuesta_usuario (recortar (entradas 0)) respuesta = false →
      procesar_respuesta_usuario (recortar (entradas 1)) respuesta = true →
      ejecutar_pregunta respuesta entradas =
        { puntos := 1/2, correcta := true, intentosUsados := 2, respuestaRevelada := false }) ∧
    (procesar_respuesta_usuario (recortar (entradas 0)) respuesta = false →
      procesar_respuesta_usuario (recortar (entradas 1)) respuesta = false →
      ejecutar_pregunta respuesta entradas =
        { puntos := 0, correcta := false, intentosUsados := 2, respuestaRevelada := true }) := by
  by_cases h0 : procesar_respuesta_usuario (recortar (entradas 0)) respuesta = true
  · refine ⟨?_, fun _ => ?_, fun h => absurd h0 (by simp [h]), fun h => absurd h0 (by simp [h])⟩ <;>
      simp [ejecutar_pregunta, h0]
  · rw [Bool.not_eq_true] at h0
    by_cases h1 : procesar_respuesta_usuario (recortar (entradas 1)) respuesta = true
    · refine ⟨?_, fun h => absurd h (by simp [h0]), fun _ _ => ?_,
        fun _ h => absurd h1 (by simp [h])⟩ <;> simp [ejecutar_pregunta, h0, h1]
    · rw [Bool.not_eq_true] at h1
      refine ⟨?_, fun h => absurd h (by simp [h0]), fun _ h => absurd h (by simp [h1]),
        fun _ _ => ?_⟩ <;> simp [ejecutar_pregunta, h0, h1]

/-- Witness for C1: a correct first attempt on answer `4` yields 1.0. -/
theorem puntuacion_dos_intentos_testigo :
    procesar_respuesta_usuario (recortar "4") "4" = true ∧
    ejecutar_pregunta "4" (fun _ => "4") =
      { puntos := 1, correcta := true, intentosUsados := 1, respuestaRevelada := false } :=
  ⟨by decide, (puntuacion_dos_intentos "4" (fun _ => "4")).2.1 (by decide)⟩

/-- C6: the answer matcher returns true exactly when the two strings are
equal after trimming and lowercasing; `" Paris "` matches `"paris"`,
`"Pariss"` does not match `"Paris"`. -/
theorem coincidencia_normalizada :
    (∀ candidata canonica : String,
      procesar_respuesta_usuario candidata canonica = true ↔
        minusculas (recortar candidata) = minusculas (recortar canonica)) ∧
    procesar_respuesta_usuario " Paris " "paris" = true ∧
    procesar_respuesta_usuario "Pariss" "Paris" = false := by
  refine ⟨fun candidata canonica => ?_, by decide, by decide⟩
  simp [procesar_respuesta_usuario]

/-- Witness for C6: the equivalence evaluated at `" Paris "`/`"paris"`. -/
theorem coincidencia_normalizada_testigo :
    minusculas (recortar " Paris ") = minusculas (recortar "paris") :=
  (coincidencia_normalizada.1 " Paris " "paris").mp (by decide)

/-- C2 counterexample: the bare array loads the card, but the enveloped
`cards` document loads the empty deck, so the two shapes do not yield the
same deck. -/
theorem carga_envuelta_no_aceptada :
    (cargar_flashcards (.ok documento_plano)).1 = [tarjeta_ejemplo] ∧
    (cargar_flashcards (.ok documento_envuelto)).1 = [] ∧
    (cargar_flashcards (.ok documento_envuelto)).1 ≠
      (cargar_flashcards (.ok documento_plano)).1 := by
  refine ⟨rfl, rfl, ?_⟩
  decide

/-- C2 amended: the load operation accepts only the bare-array shape; an
array loads through the per-item validation, while any other document —
the enveloped object form included — yields the empty deck and a warning. -/
theorem carga_solo_lista_plana (datos : Json) :
    (∀ items, datos = .arr items → cargar_flashcards (.ok datos) = validar_items items 0) ∧
    (datos.esLista = false →
      cargar_flashcards (.ok datos) = ([], [.contenidoNoEsLista])) := by
  constructor
  · rintro items rfl
    rfl
  · intro h
    cases datos <;> simp_all [cargar_flashcards, Json.esLista]

/-- Witness for C2's amended theorem: evaluated at the enveloped document. -/
theorem carga_solo_lista_plana_testigo :
    cargar_flashcards (.ok documento_envuelto) = ([], [.contenidoNoEsLista]) :=
  (carga_solo_lista_plana documento_envuelto).2 (by decide)

/-- C3 counterexample: saving a concrete one-card deck writes the bare
JSON array, which is not the enveloped object form (no metadata). -/
theorem guardado_es_lista_plana_contraejemplo :
    (guardar_flashcards [tarjeta_ejemplo] .exito).2 = some (.arr [tarjeta_ejemplo]) ∧
    es_documento_envuelto (.arr [tarjeta_ejemplo]) = false ∧
    Json.esDiccionario (.arr [tarjeta_ejemplo]) = false := by
  exact ⟨rfl, rfl, rfl⟩

/-- C3 amended: on a successful write the store serialises the deck
directly as a bare JSON array; the written document carries no metadata
envelope. -/
theorem guardado_sin_envoltura (flashcards : List Json) :
    (guardar_flashcards flashcards .exito).1 = true ∧
    (guardar_flashcards flashcards .exito).2 = some (Json.arr flashcards) ∧
    (∀ doc, (guardar_flashcards flashcards .exito).2 = some doc →
      es_documento_envuelto doc = false) := by
  refine ⟨rfl, rfl, fun doc h => ?_⟩
  injection h with h
  subst h
  rfl

/-- Witness for C3's amended theorem at a concrete deck. -/
theorem guardado_sin_envoltura_testigo :
    es_documento_envuelto (Json.arr [tarjeta_ejemplo]) = false :=
  (guardado_sin_envoltura [tarjeta_ejemplo]).2.2 (Json.arr [tarjeta_ejemplo]) rfl

/-- A card whose `categoria` is present but empty. -/
def tarjeta_categoria_vacia : List (String × Json) :=
  [("pregunta", .str "Q"), ("respuesta", .str "A"), ("categoria", .str "")]

/-- The invalidity condition as the specification words it: `question`,
`answer` or `category` missing or empty. -/
def tarjeta_invalida_segun_spec (campos : List (String × Json)) : Bool :=
  !es_cadena_no_vacia ((buscar campos "pregunta").getD .null) ||
  !es_cadena_no_vacia ((buscar campos "respuesta").getD .null) ||
  !es_cadena_no_vacia ((buscar campos "categoria").getD .null)

/-- C5 counterexample: a card with an empty (but present) `categoria` is
invalid per the specification's condition, yet `validar_flashcard`
accepts it. -/
theorem categoria_vacia_aceptada :
    tarjeta_invalida_segun_spec tarjeta_categoria_vacia = true ∧
    validar_flashcard tarjeta_categoria_vacia 0 = none := by
  decide

/-- The error a deck entry produces in the validation pass of
`iniciar_quiz` (not a dict, or the `QuizError` of `validar_flashcard`),
with the entry's index carried into the error. -/
def error_entrada (tarjeta : Json) (indice : Nat) : Option ErrorQuiz :=
  match tarjeta with
  | .obj campos => validar_flashcard campos indice
  | _ => some (.noEsDiccionario indice)

/-- Acceptance of one deck entry (the index affects only the error
payload, never whether the entry is accepted). -/
def entrada_valida (tarjeta : Json) : Bool :=
  (error_entrada tarjeta 0).isNone

/-- Acceptance of one card characterised: the three required fields are
present and `pregunta` and `respuesta` are non-empty strings after
stripping; the emptiness of `categoria` is never checked. -/
theorem validar_flashcard_none_iff (campos : List (String × Json)) (indice : Nat) :
    validar_flashcard campos indice = none ↔
      (contiene campos "pregunta" = true ∧ contiene campos "respuesta" = true ∧
       contiene campos "categoria" = true ∧
       es_cadena_no_vacia ((buscar campos "pregunta").getD .null) = true ∧
       es_cadena_no_vacia ((buscar campos "respuesta").getD .null) = true) := by
  by_cases hp : contiene campos "pregunta" <;>
    by_cases hr : contiene campos "respuesta" <;>
      by_cases hc : contiene campos "categoria" <;>
        simp [validar_flashcard, primer_campo_faltante, campos_requeridos, hp, hr, hc] <;>
          (try split_ifs <;> simp_all)

/-- Whether a card is accepted does not depend on its position. -/
theorem validar_flashcard_none_shift (campos : List (String × Json)) (i j : Nat) :
    validar_flashcard campos i = none ↔ validar_flashcard campos j = none := by
  rw [validar_flashcard_none_iff, validar_flashcard_none_iff]

/-- An entry is accepted exactly when it produces no error, at any index. -/
theorem entrada_valida_iff (tarjeta : Json) (i : Nat) :
    entrada_valida tarjeta = true ↔ error_entrada tarjeta i = none := by
  cases tarjeta <;>
    simp only [entrada_valida, error_entrada, Option.isNone_none, Option.isNone_some,
      Option.isNone_iff_eq_none] <;>
    try simp
  exact validar_flashcard_none_shift _ 0 i

/-- The validation pass accepts a deck exactly when it accepts every
entry. -/
theorem primera_invalida_none_iff (deck : List Json) : ∀ i : Nat,
    primera_invalida deck i = none ↔ ∀ x ∈ deck, entrada_valida x = true := by
  induction deck with
  | nil => intro i; simp [primera_invalida]
  | cons t resto ih =>
    intro i
    cases t with
    | obj campos =>
      simp only [primera_invalida]
      cases hv : validar_flashcard campos i with
      | some e =>
        have ht : entrada_valida (.obj campos) = false := by
          rw [Bool.eq_false_iff, Ne, entrada_valida_iff (.obj campos) i]
          simp [error_entrada, hv]
        simp [ht]
      | none =>
        have ht : entrada_valida (.obj campos) = true := by
          rw [entrada_valida_iff (.obj campos) i]
          simp [error_entrada, hv]
        simp [ih (i + 1), ht]
    | null => simp [primera_invalida, entrada_valida, error_entrada]
    | bool b => simp [primera_invalida, entrada_valida, error_entrada]
    | num n => simp [primera_invalida, entrada_valida, error_entrada]
    | str cad => simp [primera_invalida, entrada_valida, error_entrada]
    | arr items => simp [primera_invalida, entrada_valida, error_entrada]

/-- Fail-fast: with every entry before it accepted, the first rejected
entry determines the validation error — the entries after it are never
consulted. -/
theorem primera_invalida_fallo_rapido (antes : List Json) (tarjeta : Json)
    (resto : List Json) : ∀ i : Nat,
    (∀ x ∈ antes, entrada_valida x = true) → entrada_valida tarjeta = false →
    primera_invalida (antes ++ tarjeta :: resto) i =
      error_entrada tarjeta (i + antes.length) := by
  induction antes with
  | nil =>
    intro i _ ht
    simp only [List.nil_append, List.length_nil, Nat.add_zero]
    cases tarjeta with
    | obj campos =>
      simp only [primera_invalida, error_entrada]
      cases hv : validar_flashcard campos i with
      | some e => rfl
      | none =>
        have := (entrada_valida_iff (.obj campos) i).mpr (by simp [error_entrada, hv])
        rw [ht] at this
        exact nomatch this
    | null => rfl
    | bool b => rfl
    | num n => rfl
    | str cad => rfl
    | arr items => rfl
  | cons x antes' ih =>
    intro i hv ht
    have hx : entrada_valida x = true := hv x (by simp)
    cases x with
    | obj campos =>
      have hn : validar_flashcard campos i = none :=
        (entrada_valida_iff (.obj campos) i).mp hx
      simp only [List.cons_append, primera_invalida, hn, List.append_eq]
      rw [ih (i + 1) (fun y hy => hv y (List.mem_cons_of_mem _ hy)) ht, List.length_cons]
      congr 1
      omega
    | null => simp [entrada_valida, error_entrada] at hx
    | bool b => simp [entrada_valida, error_entrada] at hx
    | num n => simp [entrada_valida, error_entrada] at hx
    | str cad => simp [entrada_valida, error_entrada] at hx
    | arr items => simp [entrada_valida, error_entrada] at hx

/-- C5 amended: deck validation is fail-fast — it reports the error of
the first invalid entry, carrying that entry's index (and, for a missing
field, the first missing field name in the order `pregunta`, `respuesta`,
`categoria`), and accepts the deck exactly when it accepts every entry —
where a card is accepted exactly when the three required fields are
present and `pregunta` and `respuesta` are non-empty strings after
stripping; the emptiness of `categoria` is never checked. -/
theorem validacion_fallo_rapido :
    (∀ (campos : List (String × Json)) (indice : Nat),
      validar_flashcard campos indice = none ↔
        (contiene campos "pregunta" = true ∧ contiene campos "respuesta" = true ∧
         contiene campos "categoria" = true ∧
         es_cadena_no_vacia ((buscar campos "pregunta").getD .null) = true ∧
         es_cadena_no_vacia ((buscar campos "respuesta").getD .null) = true)) ∧
    (∀ (campos : List (String × Json)) (indice : Nat),
      contiene campos "pregunta" = false →
        validar_flashcard campos indice = some (.campoFaltante indice "pregunta")) ∧
    (∀ (campos : List (String × Json)) (indice : Nat),
      contiene campos "pregunta" = true → contiene campos "respuesta" = false →
        validar_flashcard campos indice = some (.campoFaltante indice "respuesta")) ∧
    (∀ (campos : List (String × Json)) (indice : Nat),
      contiene campos "pregunta" = true → contiene campos "respuesta" = true →
        contiene campos "categoria" = false →
        validar_flashcard campos indice = some (.campoFaltante indice "categoria")) ∧
    (∀ (antes : List Json) (tarjeta : Json) (resto : List Json) (i : Nat),
      (∀ x ∈ antes, entrada_valida x = true) → entrada_valida tarjeta = false →
      primera_invalida (antes ++ tarjeta :: resto) i =
        error_entrada tarjeta (i + antes.length)) ∧
    (∀ (deck : List Json) (i : Nat),
      primera_invalida deck i = none ↔ ∀ x ∈ deck, entrada_valida x = true) := by
  refine ⟨validar_flashcard_none_iff, ?_, ?_, ?_,
    fun antes tarjeta resto i hv ht =>
      primera_invalida_fallo_rapido antes tarjeta resto i hv ht,
    fun deck i => primera_invalida_none_iff deck i⟩
  · intro campos indice h
    simp [validar_flashcard, primer_campo_faltante, campos_requeridos, h]
  · intro campos indice hp hr
    simp [validar_flashcard, primer_campo_faltante, campos_requeridos, hp, hr]
  · intro campos indice hp hr hc
    simp [validar_flashcard, primer_campo_faltante, campos_requeridos, hp, hr, hc]

/-- Witness for C5's amended theorem: the empty-but-present-category card
passes the per-card characterisation, and on a concrete deck whose second
entry lacks `respuesta` the validation pass reports exactly that entry's
error at index 1, ignoring the invalid entries after it. -/
theorem validacion_fallo_rapido_testigo :
    validar_flashcard tarjeta_categoria_vacia 0 = none ∧
    primera_invalida [tarjeta_ejemplo, .obj [("pregunta", Json.str "Q")], .null] 0 =
      error_entrada (.obj [("pregunta", Json.str "Q")]) (0 + List.length [tarjeta_ejemplo]) :=
  ⟨(validacion_fallo_rapido.1 tarjeta_categoria_vacia 0).mpr (by decide),
   validacion_fallo_rapido.2.2.2.2.1 [tarjeta_ejemplo] (.obj [("pregunta", Json.str "Q")])
     [.null] 0 (by decide) (by decide)⟩

/-- C8: the load operation is a total function of the read outcome —
absent, unreadable, corrupt (with a warning) and non-list inputs all
yield the empty deck, and no branch surfaces an error. -/
theorem carga_total_sin_errores :
    (cargar_flashcards .noEncontrado).1 = [] ∧
    (cargar_flashcards .sinPermisos).1 = [] ∧
    (cargar_flashcards .otroError).1 = [] ∧
    cargar_flashcards .corrupto = ([], [.jsonInvalido]) ∧
    (∀ datos : Json, datos.esLista = false → (cargar_flashcards (.ok datos)).1 = []) := by
  refine ⟨rfl, rfl, rfl, rfl, fun datos h => ?_⟩
  cases datos <;> simp_all [cargar_flashcards, Json.esLista]

/-- Witness for C8: the non-list branch evaluated at `null` content. -/
theorem carga_total_sin_errores_testigo :
    (cargar_flashcards (.ok .null)).1 = [] :=
  carga_total_sin_errores.2.2.2.2 .null rfl

/-- A deck whose entries all pass the store's per-item check loads back
exactly, with no warnings. -/
theorem validar_items_todos_validos (items : List Json) (i : Nat)
    (h : ∀ x ∈ items, es_flashcard_valida x = true) :
    validar_items items i = (items, []) := by
  induction items generalizing i with
  | nil => rfl
  | cons x xs ih =>
    simp [validar_items, h x (by simp),
      ih (i + 1) (fun y hy => h y (by simp [hy]))]

/-- C9: for non-empty trimmed triples, `crear_flashcard` succeeds with the
trimmed three-field card (no `explicacion` key), and any deck of cards
passing the store's check — such cards included — round-trips through
save followed by load unchanged. -/
theorem creacion_viaje_redondo (pregunta respuesta categoria : String)
    (hq : recortar pregunta ≠ "") (ha : recortar respuesta ≠ "")
    (hc : recortar categoria ≠ "") :
    crear_flashcard pregunta respuesta categoria =
      .ok (.obj [("pregunta", .str (recortar pregunta)),
                 ("respuesta", .str (recortar respuesta)),
                 ("categoria", .str (recortar categoria))]) ∧
    es_flashcard_valida (.obj [("pregunta", .str (recortar pregunta)),
                 ("respuesta", .str (recortar respuesta)),
                 ("categoria", .str (recortar categoria))]) = true ∧
    contiene [("pregunta", Json.str (recortar pregunta)),
              ("respuesta", Json.str (recortar respuesta)),
              ("categoria", Json.str (recortar categoria))] "explicacion" = false ∧
    (∀ deck : List Json, (∀ x ∈ deck, es_flashcard_valida x = true) →
      cargar_flashcards (.ok (guardar_serializado deck)) = (deck, [])) := by
  refine ⟨?_, ?_, ?_, fun deck h => ?_⟩
  · simp [crear_flashcard, hq, ha, hc]
  · simp [es_flashcard_valida, contiene, buscar]
  · simp [contiene, buscar]
  · simpa [cargar_flashcards, guardar_serializado] using validar_items_todos_validos deck 0 h

/-- Witness for C9 at the concrete triple `("Q", "A", "C")`. -/
theorem creacion_viaje_redondo_testigo :
    crear_flashcard "Q" "A" "C" = .ok tarjeta_ejemplo ∧
    cargar_flashcards (.ok (guardar_serializado [tarjeta_ejemplo])) = ([tarjeta_ejemplo], []) :=
  ⟨by rw [(creacion_viaje_redondo "Q" "A" "C" (by decide) (by decide) (by decide)).1]; rfl,
   (creacion_viaje_redondo "Q" "A" "C" (by decide) (by decide) (by decide)).2.2.2
     [tarjeta_ejemplo] (by decide)⟩

/-- A concrete well-formed flashcard builder for the quiz counterexamples. -/
def tarjeta_qa (q a c : String) : Json :=
  .obj [("pregunta", .str q), ("respuesta", .str a), ("categoria", .str c)]

/-- A concrete two-question deck. -/
def deck_dos_preguntas : List Json :=
  [tarjeta_qa "P1" "R1" "C1", tarjeta_qa "P2" "R2" "C2"]

/-- Session inputs where question 1 is answered correctly on the first
attempt and scoring question 2 raises an exception (so it is skipped). -/
def entradas_con_fallo : Nat → EntradaPregunta := fun i =>
  if i = 1 then .respuestas (fun _ => "R2") else .excepcion

/-- The specification-side count of questions actually scored: those whose
processing does not raise. -/
def preguntas_puntuadas (total : Nat) (entradas : Nat → EntradaPregunta) : Nat :=
  ((List.range total).map (fun i =>
    match entradas (i + 1) with
    | .excepcion => 0
    | _ => 1)).sum

/-- The concrete session of the C4 analysis, evaluated: question 1 is
answered correctly at once, question 2 is skipped by an error, and the
session completes with a report over 2 questions. -/
theorem sesion_concreta_completada :
    iniciar_quiz deck_dos_preguntas (fun _ => 0) entradas_con_fallo =
      .completado { puntuacion_total := 1, total_preguntas := 2, correctas := 1,
                    parcialmente_correctas := 0, incorrectas := 1, porcentaje := 50 } := by
  have hvalida : primera_invalida deck_dos_preguntas 0 = none := by decide
  have hmezcla : mezclar (fun _ => 0) deck_dos_preguntas =
      [tarjeta_qa "P2" "R2" "C2", tarjeta_qa "P1" "R1" "C1"] := by decide
  have hresp : comoCadena (obtenerCampo (tarjeta_qa "P2" "R2" "C2") "respuesta") = "R2" := by
    decide
  have hproc : procesar_respuesta_usuario (recortar "R2") "R2" = true := by decide
  have hejec : ejecutar_pregunta
      (comoCadena (obtenerCampo (tarjeta_qa "P2" "R2" "C2") "respuesta")) (fun _ => "R2") =
      { puntos := 1, correcta := true, intentosUsados := 1, respuestaRevelada := false } := by
    rw [hresp]
    simp [ejecutar_pregunta, hproc]
  have hne : deck_dos_preguntas.isEmpty = false := rfl
  have hent1 : entradas_con_fallo 1 = .respuestas (fun _ => "R2") := rfl
  have hent2 : entradas_con_fallo 2 = .excepcion := rfl
  simp only [iniciar_quiz, hne, Bool.false_eq_true, if_false, hvalida, hmezcla]
  simp only [bucle_preguntas, hent1, hent2, hejec]
  norm_num [mostrar_resumen_final]

/-- C4 counterexample: on the two-question deck with one question skipped
by an error, the report's denominator is 2 — the full deck length — while
only 1 question was actually scored. -/
theorem total_incluye_saltadas_contraejemplo :
    iniciar_quiz deck_dos_preguntas (fun _ => 0) entradas_con_fallo =
      .completado { puntuacion_total := 1, total_preguntas := 2, correctas := 1,
                    parcialmente_correctas := 0, incorrectas := 1, porcentaje := 50 } ∧
    preguntas_puntuadas 2 entradas_con_fallo = 1 ∧
    (2 : Nat) ≠ 1 :=
  ⟨sesion_concreta_completada, by decide, by decide⟩

/-- C4 amended: in every completed session the report's total possible
equals the full deck length, questions skipped due to scoring errors
included. -/
theorem total_posible_es_longitud_deck (deck : List Json) (aleatorios : Nat → Nat)
    (entradas : Nat → EntradaPregunta) (r : Resumen)
    (h : iniciar_quiz deck aleatorios entradas = .completado r) :
    r.total_preguntas = deck.length := by
  simp only [iniciar_quiz] at h
  by_cases he : deck.isEmpty
  · simp [he] at h
  · rw [if_neg he] at h
    cases hp : primera_invalida deck 0 with
    | some e => rw [hp] at h; exact nomatch h
    | none =>
      rw [hp] at h
      cases hb : bucle_preguntas entradas (mezclar aleatorios deck) 1
          { puntuacion_total := 0, correctas_primer_intento := 0,
            correctas_segundo_intento := 0 } with
      | none => rw [hb] at h; exact nomatch h
      | some estado =>
        rw [hb] at h
        have hr := ResultadoQuiz.completado.inj h
        rw [← hr]
        simpa [mostrar_resumen_final] using mezclar_length aleatorios deck

/-- Witness for C4's amended theorem at the concrete session. -/
theorem total_posible_es_longitud_deck_testigo :
    ({ puntuacion_total := 1, total_preguntas := 2, correctas := 1,
       parcialmente_correctas := 0, incorrectas := 1, porcentaje := 50 } : Resumen).total_preguntas
      = deck_dos_preguntas.length :=
  total_posible_es_longitud_deck deck_dos_preguntas (fun _ => 0) entradas_con_fallo _
    sesion_concreta_completada

/-- C7: session setup allocates a fresh list (a distinct reference),
leaves the caller's deck object untouched on the heap, and the session
deck it shuffles in place is a permutation of the caller's deck. -/
theorem sesion_preserva_deck_original (m : Memoria) (deck_ref : Nat)
    (aleatorios : Nat → Nat) (h : deck_ref < m.length) :
    (preparar_deck_sesion m deck_ref aleatorios).2 ≠ deck_ref ∧
    leer (preparar_deck_sesion m deck_ref aleatorios).1 deck_ref = leer m deck_ref ∧
    List.Perm (leer (preparar_deck_sesion m deck_ref aleatorios).1
      (preparar_deck_sesion m deck_ref aleatorios).2) (leer m deck_ref) := by
  refine ⟨Nat.ne_of_gt h, ?_, ?_⟩
  · show leer (List.set (m ++ [leer m deck_ref]) m.length _) deck_ref = leer m deck_ref
    unfold leer
    rw [List.get?_set_ne _ _ (Nat.ne_of_gt h), List.get?_append h]
  · show List.Perm (leer (List.set (m ++ [leer m deck_ref]) m.length
      (mezclar aleatorios (leer (m ++ [leer m deck_ref]) m.length))) m.length) _
    unfold leer
    rw [List.get?_set_eq_of_lt _ (by simp), List.get?_concat_length]
    exact mezclar_perm aleatorios _

/-- Witness for C7 on a concrete one-object heap. -/
theorem sesion_preserva_deck_original_testigo :
    leer (preparar_deck_sesion [[tarjeta_ejemplo]] 0 (fun _ => 0)).1 0
      = leer [[tarjeta_ejemplo]] 0 :=
  (sesion_preserva_deck_original [[tarjeta_ejemplo]] 0 (fun _ => 0) (by decide)).2.1

/-- Looking up the updated key after the in-place `lista[item] += cantidad`
update yields the old quantity plus the new one. -/
theorem buscar_actualizacion_misma_clave (l : List (String × Int)) (item : String)
    (cantidad : Int) :
    buscar (l.map fun p => if p.1 = item then (p.1, p.2 + cantidad) else p) item =
      (buscar l item).map (· + cantidad) := by
  induction l with
  | nil => rfl
  | cons p resto ih =>
    obtain ⟨k, v⟩ := p
    rw [List.map_cons]
    by_cases hk : k = item
    · rw [if_pos hk, buscar, if_pos hk, buscar, if_pos hk]
      rfl
    · rw [if_neg hk, buscar, if_neg hk, buscar, if_neg hk, ih]

/-- Other keys are untouched by the in-place quantity update. -/
theorem buscar_actualizacion_otra_clave (l : List (String × Int)) (item clave : String)
    (cantidad : Int) (h : clave ≠ item) :
    buscar (l.map fun p => if p.1 = item then (p.1, p.2 + cantidad) else p) clave =
      buscar l clave := by
  induction l with
  | nil => rfl
  | cons p resto ih =>
    obtain ⟨k, v⟩ := p
    rw [List.map_cons]
    by_cases hk : k = item
    · have hkc : ¬(k = clave) := by rw [hk]; exact Ne.symm h
      rw [if_pos hk, buscar, if_neg hkc, buscar, if_neg hkc, ih]
    · by_cases hc : k = clave
      · rw [if_neg hk, buscar, if_pos hc, buscar, if_pos hc]
      · rw [if_neg hk, buscar, if_neg hc, buscar, if_neg hc, ih]

/-- Appending a fresh entry does not affect lookups of other keys. -/
theorem buscar_append_otra_clave (l : List (String × Int)) (item clave : String)
    (cantidad : Int) (h : clave ≠ item) :
    buscar (l ++ [(item, cantidad)]) clave = buscar l clave := by
  induction l with
  | nil => simp [buscar, Ne.symm h]
  | cons p resto ih =>
    obtain ⟨k, v⟩ := p
    by_cases hc : k = clave <;> simp [buscar, hc, ih]

/-- Looking up a key absent from `l` in `l ++ [(item, cantidad)]` finds the
appended entry. -/
theorem buscar_append_misma_clave (l : List (String × Int)) (item : String)
    (cantidad : Int) (h : buscar l item = none) :
    buscar (l ++ [(item, cantidad)]) item = some cantidad := by
  induction l with
  | nil => simp [buscar]
  | cons p resto ih =>
    obtain ⟨k, v⟩ := p
    by_cases hc : k = item
    · simp [buscar, hc] at h
    · rw [buscar, if_neg hc] at h
      rw [List.cons_append, buscar, if_neg hc]
      exact ih h

/-- C10: in the dict-based shopping list, adding a present item keeps the
key sequence and sums the quantities; adding an absent item appends
exactly one new entry with the given quantity; all other entries are
unchanged either way. -/
theorem agregar_item_suma_o_inserta (lista : List (String × Int)) (item : String)
    (cantidad : Int) :
    (∀ v, buscar lista item = some v →
      (agregar_item lista item cantidad).map Prod.fst = lista.map Prod.fst ∧
      buscar (agregar_item lista item cantidad) item = some (v + cantidad)) ∧
    (buscar lista item = none →
      agregar_item lista item cantidad = lista ++ [(item, cantidad)] ∧
      buscar (agregar_item lista item cantidad) item = some cantidad) ∧
    (∀ clave, clave ≠ item →
      buscar (agregar_item lista item cantidad) clave = buscar lista clave) := by
  refine ⟨fun v hv => ⟨?_, ?_⟩, fun hn => ⟨?_, ?_⟩, fun clave hc => ?_⟩
  · simp only [agregar_item, contiene, hv, Option.isSome_some, if_true]
    rw [List.map_map]
    apply List.map_congr_left
    intro p _
    by_cases hk : p.1 = item <;> simp [hk]
  · simp only [agregar_item, contiene, hv, Option.isSome_some, if_true]
    rw [buscar_actualizacion_misma_clave, hv]
    rfl
  · simp [agregar_item, contiene, hn]
  · simp only [agregar_item, contiene, hn, Option.isSome_none, Bool.false_eq_true, if_false]
    exact buscar_append_misma_clave lista item cantidad hn
  · unfold agregar_item contiene
    cases hv : buscar lista item with
    | some v =>
      simp only [hv, Option.isSome_some, if_true]
      exact buscar_actualizacion_otra_clave lista item clave cantidad hc
    | none =>
      simp only [hv, Option.isSome_none, Bool.false_eq_true, if_false]
      exact buscar_append_otra_clave lista item clave cantidad hc

/-- Witness for C10: the present-item and absent-item branches on concrete
lists. -/
theorem agregar_item_suma_o_inserta_testigo :
    buscar (agregar_item [("pan", 2)] "pan" 3) "pan" = some (2 + 3) ∧
    agregar_item ([] : List (String × Int)) "queso" 5 = [("queso", 5)] :=
  ⟨((agregar_item_suma_o_inserta [("pan", 2)] "pan" 3).1 2 rfl).2,
   ((agregar_item_suma_o_inserta [] "queso" 5).2.1 rfl).1⟩
